import Mathlib

/-!
Verification of `split_spreads.py` (R2D2-cz/split-pdf-spreads).

The script splits double-page (spread) PDF pages into two halves by
computing two crop boxes per source page.  We embed the arithmetic of the
script over ℚ (the Python source computes over floats; the specification
states the geometric laws over the reals, and the rationals give the
exact arithmetic those laws describe), pages as records carrying a
mediabox, a cropbox and a rotation, and documents as lists of pages.
-/

namespace SplitSpreads

/-- A PDF rectangle `(llx, lly, urx, ury)`, as used for `/MediaBox` and
`/CropBox`. -/
structure Box where
  llx : ℚ
  lly : ℚ
  urx : ℚ
  ury : ℚ
deriving Repr, DecidableEq, Inhabited

/-- `RectangleObject.width` in pypdf: `urx - llx`. -/
def Box.width (b : Box) : ℚ := b.urx - b.llx

/-- `RectangleObject.height` in pypdf: `ury - lly`. -/
def Box.height (b : Box) : ℚ := b.ury - b.lly

/-- One PDF page as the script observes and mutates it: its `/MediaBox`,
its `/CropBox` and its `/Rotate` value (degrees). -/
structure Page where
  mediabox : Box
  cropbox : Box
  rotation : ℤ
deriving Repr, DecidableEq, Inhabited

/-- `PageObject.rotate(angle)` in pypdf adds `angle` to the current
`/Rotate` value. -/
def Page.rotate (p : Page) (angle : ℤ) : Page :=
  { p with rotation := p.rotation + angle }

/-- Lines 92-99 / 131-137 of `split_spreads.py`: if the page's rotation is
non-zero, call `rotate(0)` (which adds 0 degrees). -/
def normalize_rotation (p : Page) : Page :=
  if p.rotation ≠ 0 then p.rotate 0 else p

/-- `split_page_vertically(page, ratio, gutter, offset)`
(`split_spreads.py` lines 56-101).  Returns the (left, right) deep copies
of `page` with their crop boxes set to the two computed halves. -/
def split_page_vertically (page : Page) (ratio gutter offset : ℚ) :
    Page × Page :=
  let width := page.mediabox.width
  let height := page.mediabox.height
  let split_x := width * ratio + offset
  let left_right_pad := gutter / 2
  let left_urx := max 0 (min width (split_x - left_right_pad))
  let right_llx := min width (max 0 (split_x + left_right_pad))
  let left : Page := { page with cropbox := ⟨0, 0, left_urx, height⟩ }
  let right : Page := { page with cropbox := ⟨right_llx, 0, width, height⟩ }
  (normalize_rotation left, normalize_rotation right)

/-- `split_page_horizontally(page, ratio, gutter, offset)`
(`split_spreads.py` lines 103-139).  Returns the (bottom, top) deep
copies of `page` with their crop boxes set to the two computed halves. -/
def split_page_horizontally (page : Page) (ratio gutter offset : ℚ) :
    Page × Page :=
  let width := page.mediabox.width
  let height := page.mediabox.height
  let split_y := height * ratio + offset
  let top_bottom_pad := gutter / 2
  let bottom_ury := max 0 (min height (split_y - top_bottom_pad))
  let top_lly := min height (max 0 (split_y + top_bottom_pad))
  let bottom : Page := { page with cropbox := ⟨0, 0, width, bottom_ury⟩ }
  let top : Page := { page with cropbox := ⟨0, top_lly, width, height⟩ }
  (normalize_rotation bottom, normalize_rotation top)

/-- The split orientation selected by `--orientation`. -/
inductive Orientation
  | vertical
  | horizontal
deriving Repr, DecidableEq

/-- The orientation dispatch inside `process_file`
(lines 151-154): vertical uses `split_page_vertically`, anything else
uses `split_page_horizontally`. -/
def split_dispatch (orientation : Orientation) (page : Page)
    (ratio gutter offset : ℚ) : Page × Page :=
  if orientation = Orientation.vertical then
    split_page_vertically page ratio gutter offset
  else
    split_page_horizontally page ratio gutter offset

/-- Lines 158-160 of `process_file`: set the page's mediabox lower-left
and upper-right to its cropbox's. -/
def setMediaboxToCropbox (p : Page) : Page :=
  { p with mediabox := p.cropbox }

/-- The page loop of `process_file` (`split_spreads.py` lines 149-163):
for each source page in order, split it into two pages, shrink each
half's mediabox to its cropbox, and append both halves to the output. -/
def process_file (orientation : Orientation) (ratio gutter offset : ℚ) :
    List Page → List Page
  | [] => []
  | page :: rest =>
      let pr := split_dispatch orientation page ratio gutter offset
      setMediaboxToCropbox pr.1 :: setMediaboxToCropbox pr.2 ::
        process_file orientation ratio gutter offset rest

/-- The attempted rotation normalization is a no-op: `rotate(0)` adds 0
degrees, so the page is returned unchanged. -/
theorem normalize_rotation_eq (p : Page) : normalize_rotation p = p := by
  cases p with
  | mk m c r =>
      unfold normalize_rotation Page.rotate
      split <;> simp

/-- A value already inside `[0, w]` is unchanged by the left half's
clamp `max 0 (min w x)`. -/
theorem clamp_left_of_mem (w x : ℚ) (h0 : 0 ≤ x) (hw : x ≤ w) :
    max 0 (min w x) = x := by
  rw [min_eq_right hw, max_eq_right h0]

/-- A value already inside `[0, w]` is unchanged by the right half's
clamp `min w (max 0 x)`. -/
theorem clamp_right_of_mem (w x : ℚ) (h0 : 0 ≤ x) (hw : x ≤ w) :
    min w (max 0 x) = x := by
  rw [max_eq_right h0, min_eq_right hw]

/-- The two clamped boundaries keep their order: when `a ≤ b`, the left
boundary `max 0 (min w a)` never exceeds the right boundary
`min w (max 0 b)`. -/
theorem clamp_left_le_clamp_right (w a b : ℚ) (hw : 0 ≤ w) (hab : a ≤ b) :
    max 0 (min w a) ≤ min w (max 0 b) :=
  le_min (max_le hw (min_le_left w a))
    (max_le (le_max_left 0 b)
      ((min_le_right w a).trans (hab.trans (le_max_right 0 b))))

/-- The distance between the two clamped boundaries, in closed form. -/
theorem clamp_gap_eq (w a b : ℚ) (hw : 0 ≤ w) (hab : a ≤ b) :
    min w (max 0 b) - max 0 (min w a) = max 0 (min w b - max 0 a) := by
  simp only [min_def, max_def]
  split_ifs <;> linarith

end SplitSpreads

namespace SplitSpreads

/-- C6: For every source page and every split parameters, both output
pages of the split carry the source page's rotation value unchanged,
for both orientations (the `rotate(0)` normalization attempt adds 0
degrees, so the observable rotation is passed through untouched). -/
theorem rotation_passthrough (page : Page) (ratio gutter offset : ℚ) :
    (split_page_vertically page ratio gutter offset).1.rotation
        = page.rotation ∧
    (split_page_vertically page ratio gutter offset).2.rotation
        = page.rotation ∧
    (split_page_horizontally page ratio gutter offset).1.rotation
        = page.rotation ∧
    (split_page_horizontally page ratio gutter offset).2.rotation
        = page.rotation := by
  simp [split_page_vertically, split_page_horizontally,
    normalize_rotation_eq]

/-- C4: for a 600×800 page split vertically with `ratio = 0.55`,
`gutter = 6`, `offset = 0`, the split position is `330`, the half-gutter
pad is `3`, and the crop boxes are exactly `(0, 0, 327, 800)` and
`(333, 0, 600, 800)`. -/
theorem scenario_ratio55_gutter6 :
    (600 : ℚ) * (55 / 100) + 0 = 330 ∧ (6 : ℚ) / 2 = 3 ∧
    (split_page_vertically
        ⟨⟨0, 0, 600, 800⟩, ⟨0, 0, 600, 800⟩, 0⟩ (55 / 100) 6 0).1.cropbox
      = ⟨0, 0, 327, 800⟩ ∧
    (split_page_vertically
        ⟨⟨0, 0, 600, 800⟩, ⟨0, 0, 600, 800⟩, 0⟩ (55 / 100) 6 0).2.cropbox
      = ⟨333, 0, 600, 800⟩ := by
  refine ⟨by norm_num, by norm_num, ?_, ?_⟩ <;>
    simp [split_page_vertically, normalize_rotation_eq, Box.width,
      Box.height] <;> norm_num

/-- C2: with `ratio = 0.5`, `gutter = 0`, `offset = 0`, the two boxes
exactly partition the page: the first box's far edge equals the second
box's near edge on the split axis, and both equal half the axis length,
for both orientations. -/
theorem half_split_partitions (page : Page)
    (hw : 0 < page.mediabox.width) (hh : 0 < page.mediabox.height) :
    (split_page_vertically page (1 / 2) 0 0).1.cropbox.urx
        = page.mediabox.width / 2 ∧
    (split_page_vertically page (1 / 2) 0 0).2.cropbox.llx
        = page.mediabox.width / 2 ∧
    (split_page_horizontally page (1 / 2) 0 0).1.cropbox.ury
        = page.mediabox.height / 2 ∧
    (split_page_horizontally page (1 / 2) 0 0).2.cropbox.lly
        = page.mediabox.height / 2 := by
  have hv : page.mediabox.width * (1 / 2) + 0 - 0 / 2
      = page.mediabox.width / 2 := by ring
  have hv' : page.mediabox.width * (1 / 2) + 0 + 0 / 2
      = page.mediabox.width / 2 := by ring
  have hhh : page.mediabox.height * (1 / 2) + 0 - 0 / 2
      = page.mediabox.height / 2 := by ring
  have hhh' : page.mediabox.height * (1 / 2) + 0 + 0 / 2
      = page.mediabox.height / 2 := by ring
  simp only [split_page_vertically, split_page_horizontally,
    normalize_rotation_eq, hv, hv', hhh, hhh']
  refine ⟨?_, ?_, ?_, ?_⟩
  · exact clamp_left_of_mem _ _ (by linarith) (by linarith)
  · exact clamp_right_of_mem _ _ (by linarith) (by linarith)
  · exact clamp_left_of_mem _ _ (by linarith) (by linarith)
  · exact clamp_right_of_mem _ _ (by linarith) (by linarith)

/-- Witness for C2 at a concrete 600×800 page. -/
theorem half_split_partitions_witness :
    (0 : ℚ) < Box.width ⟨0, 0, 600, 800⟩ ∧
    (0 : ℚ) < Box.height ⟨0, 0, 600, 800⟩ ∧
    ((split_page_vertically
        ⟨⟨0, 0, 600, 800⟩, ⟨0, 0, 600, 800⟩, 0⟩ (1 / 2) 0 0).1.cropbox.urx
      = Box.width ⟨0, 0, 600, 800⟩ / 2 ∧
    (split_page_vertically
        ⟨⟨0, 0, 600, 800⟩, ⟨0, 0, 600, 800⟩, 0⟩ (1 / 2) 0 0).2.cropbox.llx
      = Box.width ⟨0, 0, 600, 800⟩ / 2 ∧
    (split_page_horizontally
        ⟨⟨0, 0, 600, 800⟩, ⟨0, 0, 600, 800⟩, 0⟩ (1 / 2) 0 0).1.cropbox.ury
      = Box.height ⟨0, 0, 600, 800⟩ / 2 ∧
    (split_page_horizontally
        ⟨⟨0, 0, 600, 800⟩, ⟨0, 0, 600, 800⟩, 0⟩ (1 / 2) 0 0).2.cropbox.lly
      = Box.height ⟨0, 0, 600, 800⟩ / 2) :=
  ⟨by norm_num [Box.width], by norm_num [Box.height],
    half_split_partitions ⟨⟨0, 0, 600, 800⟩, ⟨0, 0, 600, 800⟩, 0⟩
      (by norm_num [Box.width]) (by norm_num [Box.height])⟩

/-- C10: whenever `gutter ≥ 0`, the two boxes never overlap: the first
box's far edge on the split axis is at most the second box's near edge,
for both orientations. -/
theorem halves_disjoint (page : Page) (ratio gutter offset : ℚ)
    (hg : 0 ≤ gutter) (hw : 0 < page.mediabox.width)
    (hh : 0 < page.mediabox.height) :
    (split_page_vertically page ratio gutter offset).1.cropbox.urx
        ≤ (split_page_vertically page ratio gutter offset).2.cropbox.llx ∧
    (split_page_horizontally page ratio gutter offset).1.cropbox.ury
        ≤ (split_page_horizontally page ratio gutter offset).2.cropbox.lly := by
  simp only [split_page_vertically, split_page_horizontally,
    normalize_rotation_eq]
  constructor
  · exact clamp_left_le_clamp_right _ _ _ (le_of_lt hw) (by linarith)
  · exact clamp_left_le_clamp_right _ _ _ (le_of_lt hh) (by linarith)

/-- Witness for C10 at a concrete 600×800 page with `gutter = 6`. -/
theorem halves_disjoint_witness :
    (0 : ℚ) ≤ 6 ∧ (0 : ℚ) < Box.width ⟨0, 0, 600, 800⟩ ∧
    (0 : ℚ) < Box.height ⟨0, 0, 600, 800⟩ ∧
    ((split_page_vertically
        ⟨⟨0, 0, 600, 800⟩, ⟨0, 0, 600, 800⟩, 0⟩ (55 / 100) 6 0).1.cropbox.urx
      ≤ (split_page_vertically
        ⟨⟨0, 0, 600, 800⟩, ⟨0, 0, 600, 800⟩, 0⟩ (55 / 100) 6 0).2.cropbox.llx ∧
    (split_page_horizontally
        ⟨⟨0, 0, 600, 800⟩, ⟨0, 0, 600, 800⟩, 0⟩ (55 / 100) 6 0).1.cropbox.ury
      ≤ (split_page_horizontally
        ⟨⟨0, 0, 600, 800⟩, ⟨0, 0, 600, 800⟩, 0⟩ (55 / 100) 6 0).2.cropbox.lly) :=
  ⟨by norm_num, by norm_num [Box.width], by norm_num [Box.height],
    halves_disjoint ⟨⟨0, 0, 600, 800⟩, ⟨0, 0, 600, 800⟩, 0⟩ (55 / 100) 6 0
      (by norm_num) (by norm_num [Box.width]) (by norm_num [Box.height])⟩

/-- A concrete 600×800 page located at the origin, used to instantiate
the hypotheses of the general theorems. -/
def pageEx : Page := ⟨⟨0, 0, 600, 800⟩, ⟨0, 0, 600, 800⟩, 0⟩

/-- C5: no parameter validation — for any `ratio` (also outside `[0,1]`),
any `gutter` (also negative) and any `offset`, the split is total, every
computed boundary lies in `[0, axisLength]`, and each returned crop box
has non-negative extent on both axes, for both orientations. -/
theorem no_validation_clamped_boxes (page : Page) (ratio gutter offset : ℚ)
    (hw : 0 < page.mediabox.width) (hh : 0 < page.mediabox.height) :
    (0 ≤ (split_page_vertically page ratio gutter offset).1.cropbox.urx ∧
      (split_page_vertically page ratio gutter offset).1.cropbox.urx
        ≤ page.mediabox.width ∧
      0 ≤ (split_page_vertically page ratio gutter offset).2.cropbox.llx ∧
      (split_page_vertically page ratio gutter offset).2.cropbox.llx
        ≤ page.mediabox.width ∧
      0 ≤ Box.width (split_page_vertically page ratio gutter offset).1.cropbox ∧
      0 ≤ Box.height (split_page_vertically page ratio gutter offset).1.cropbox ∧
      0 ≤ Box.width (split_page_vertically page ratio gutter offset).2.cropbox ∧
      0 ≤ Box.height (split_page_vertically page ratio gutter offset).2.cropbox) ∧
    (0 ≤ (split_page_horizontally page ratio gutter offset).1.cropbox.ury ∧
      (split_page_horizontally page ratio gutter offset).1.cropbox.ury
        ≤ page.mediabox.height ∧
      0 ≤ (split_page_horizontally page ratio gutter offset).2.cropbox.lly ∧
      (split_page_horizontally page ratio gutter offset).2.cropbox.lly
        ≤ page.mediabox.height ∧
      0 ≤ Box.width (split_page_horizontally page ratio gutter offset).1.cropbox ∧
      0 ≤ Box.height (split_page_horizontally page ratio gutter offset).1.cropbox ∧
      0 ≤ Box.width (split_page_horizontally page ratio gutter offset).2.cropbox ∧
      0 ≤ Box.height (split_page_horizontally page ratio gutter offset).2.cropbox) := by
  have hw' : (0 : ℚ) ≤ page.mediabox.urx - page.mediabox.llx := by
    have h := hw; rw [Box.width] at h; linarith
  have hh' : (0 : ℚ) ≤ page.mediabox.ury - page.mediabox.lly := by
    have h := hh; rw [Box.height] at h; linarith
  simp only [split_page_vertically, split_page_horizontally,
    normalize_rotation_eq, Box.width, Box.height, sub_zero]
  exact ⟨⟨le_max_left _ _, max_le hw' (min_le_left _ _),
      le_min hw' (le_max_left _ _), min_le_left _ _,
      le_max_left _ _, hh', sub_nonneg.mpr (min_le_left _ _), hh'⟩,
    le_max_left _ _, max_le hh' (min_le_left _ _),
    le_min hh' (le_max_left _ _), min_le_left _ _,
    hw', le_max_left _ _, hw', sub_nonneg.mpr (min_le_left _ _)⟩

/-- Witness for C5 at `ratio = 2`, `gutter = -5`, `offset = 1000` on a
concrete 600×800 page. -/
theorem no_validation_clamped_boxes_witness :
    0 < pageEx.mediabox.width ∧ 0 < pageEx.mediabox.height ∧
    ((0 ≤ (split_page_vertically pageEx 2 (-5) 1000).1.cropbox.urx ∧
      (split_page_vertically pageEx 2 (-5) 1000).1.cropbox.urx
        ≤ pageEx.mediabox.width ∧
      0 ≤ (split_page_vertically pageEx 2 (-5) 1000).2.cropbox.llx ∧
      (split_page_vertically pageEx 2 (-5) 1000).2.cropbox.llx
        ≤ pageEx.mediabox.width ∧
      0 ≤ Box.width (split_page_vertically pageEx 2 (-5) 1000).1.cropbox ∧
      0 ≤ Box.height (split_page_vertically pageEx 2 (-5) 1000).1.cropbox ∧
      0 ≤ Box.width (split_page_vertically pageEx 2 (-5) 1000).2.cropbox ∧
      0 ≤ Box.height (split_page_vertically pageEx 2 (-5) 1000).2.cropbox) ∧
    (0 ≤ (split_page_horizontally pageEx 2 (-5) 1000).1.cropbox.ury ∧
      (split_page_horizontally pageEx 2 (-5) 1000).1.cropbox.ury
        ≤ pageEx.mediabox.height ∧
      0 ≤ (split_page_horizontally pageEx 2 (-5) 1000).2.cropbox.lly ∧
      (split_page_horizontally pageEx 2 (-5) 1000).2.cropbox.lly
        ≤ pageEx.mediabox.height ∧
      0 ≤ Box.width (split_page_horizontally pageEx 2 (-5) 1000).1.cropbox ∧
      0 ≤ Box.height (split_page_horizontally pageEx 2 (-5) 1000).1.cropbox ∧
      0 ≤ Box.width (split_page_horizontally pageEx 2 (-5) 1000).2.cropbox ∧
      0 ≤ Box.height (split_page_horizontally pageEx 2 (-5) 1000).2.cropbox)) :=
  ⟨by norm_num [pageEx, Box.width], by norm_num [pageEx, Box.height],
    no_validation_clamped_boxes pageEx 2 (-5) 1000
      (by norm_num [pageEx, Box.width]) (by norm_num [pageEx, Box.height])⟩

/-- The spec's "boundary-clamped remainder" for the gutter law: the room
left for the gutter gap once both boundaries are clamped into
`[0, axisLength]`. -/
def clamped_remainder (axisLength splitPos pad : ℚ) : ℚ :=
  max 0 (min axisLength (splitPos + pad) - max 0 (splitPos - pad))

/-- C3: for every `gutter ≥ 0`, the gap on the split axis — the second
box's near edge minus the first box's far edge — equals
`min gutter (boundary-clamped remainder)`: the requested gutter except
where the clamping into `[0, axisLength]` reduces it, for both
orientations. -/
theorem gutter_gap_law (page : Page) (ratio gutter offset : ℚ)
    (hg : 0 ≤ gutter) (hw : 0 < page.mediabox.width)
    (hh : 0 < page.mediabox.height) :
    (split_page_vertically page ratio gutter offset).2.cropbox.llx
        - (split_page_vertically page ratio gutter offset).1.cropbox.urx
      = min gutter (clamped_remainder page.mediabox.width
          (page.mediabox.width * ratio + offset) (gutter / 2)) ∧
    (split_page_horizontally page ratio gutter offset).2.cropbox.lly
        - (split_page_horizontally page ratio gutter offset).1.cropbox.ury
      = min gutter (clamped_remainder page.mediabox.height
          (page.mediabox.height * ratio + offset) (gutter / 2)) := by
  have key : ∀ L : ℚ, 0 < L → ∀ s : ℚ,
      min L (max 0 (s + gutter / 2)) - max 0 (min L (s - gutter / 2))
        = min gutter (clamped_remainder L s (gutter / 2)) := by
    intro L hL s
    have hab : s - gutter / 2 ≤ s + gutter / 2 := by linarith
    have h1 := clamp_gap_eq L (s - gutter / 2) (s + gutter / 2) hL.le hab
    have h2 : clamped_remainder L s (gutter / 2) ≤ gutter := by
      have h3 := min_le_right L (s + gutter / 2)
      have h4 := le_max_right (0 : ℚ) (s - gutter / 2)
      exact max_le hg (by linarith)
    rw [min_eq_right h2, clamped_remainder]
    exact h1
  simp only [split_page_vertically, split_page_horizontally,
    normalize_rotation_eq]
  exact ⟨key _ hw _, key _ hh _⟩

/-- Witness for C3 at `ratio = 0.55`, `gutter = 6`, `offset = 0` on a
concrete 600×800 page. -/
theorem gutter_gap_law_witness :
    (0 : ℚ) ≤ 6 ∧ 0 < pageEx.mediabox.width ∧ 0 < pageEx.mediabox.height ∧
    ((split_page_vertically pageEx (55 / 100) 6 0).2.cropbox.llx
        - (split_page_vertically pageEx (55 / 100) 6 0).1.cropbox.urx
      = min 6 (clamped_remainder pageEx.mediabox.width
          (pageEx.mediabox.width * (55 / 100) + 0) (6 / 2)) ∧
    (split_page_horizontally pageEx (55 / 100) 6 0).2.cropbox.lly
        - (split_page_horizontally pageEx (55 / 100) 6 0).1.cropbox.ury
      = min 6 (clamped_remainder pageEx.mediabox.height
          (pageEx.mediabox.height * (55 / 100) + 0) (6 / 2))) :=
  ⟨by norm_num, by norm_num [pageEx, Box.width], by norm_num [pageEx, Box.height],
    gutter_gap_law pageEx (55 / 100) 6 0 (by norm_num)
      (by norm_num [pageEx, Box.width]) (by norm_num [pageEx, Box.height])⟩

/-- C1: for every input document with `N` pages (including `N = 0`),
`process_file` outputs exactly `2N` pages, where output pages `2k` and
`2k + 1` (0-indexed) are the two halves of source page `k`, in the order
returned by the splitter, preserving original page order. -/
theorem page_count_and_order (orientation : Orientation)
    (ratio gutter offset : ℚ) (pages : List Page) :
    (process_file orientation ratio gutter offset pages).length
        = 2 * pages.length ∧
    ∀ k : ℕ,
      (process_file orientation ratio gutter offset pages)[2 * k]?
        = (pages[k]?).map (fun p =>
            setMediaboxToCropbox
              (split_dispatch orientation p ratio gutter offset).1) ∧
      (process_file orientation ratio gutter offset pages)[2 * k + 1]?
        = (pages[k]?).map (fun p =>
            setMediaboxToCropbox
              (split_dispatch orientation p ratio gutter offset).2) := by
  induction pages with
  | nil => simp [process_file]
  | cons page rest ih =>
      refine ⟨?_, ?_⟩
      · simp only [process_file, List.length_cons, ih.1]
        ring
      · intro k
        cases k with
        | zero => simp [process_file]
        | succ k =>
            have e1 : 2 * (k + 1) = 2 * k + 1 + 1 := by ring
            have e2 : 2 * (k + 1) + 1 = 2 * k + 1 + 1 + 1 := by ring
            simp only [process_file, e1, e2, List.getElem?_cons_succ]
            exact ih.2 k

/-- C7: every page produced by `process_file` has its mediabox set
exactly equal to its cropbox: the output page's nominal size is its
cropped region. -/
theorem mediabox_matches_cropbox (orientation : Orientation)
    (ratio gutter offset : ℚ) (pages : List Page) (q : Page)
    (hq : q ∈ process_file orientation ratio gutter offset pages) :
    q.mediabox = q.cropbox := by
  induction pages with
  | nil => simp [process_file] at hq
  | cons page rest ih =>
      simp only [process_file, List.mem_cons] at hq
      rcases hq with h | h | h
      · subst h; rfl
      · subst h; rfl
      · exact ih h

/-- Witness for C7 at the first output page of a one-page document. -/
theorem mediabox_matches_cropbox_witness :
    (setMediaboxToCropbox
        (split_dispatch .vertical pageEx (1 / 2) 0 0).1
      ∈ process_file .vertical (1 / 2) 0 0 [pageEx]) ∧
    (setMediaboxToCropbox
        (split_dispatch .vertical pageEx (1 / 2) 0 0).1).mediabox
      = (setMediaboxToCropbox
        (split_dispatch .vertical pageEx (1 / 2) 0 0).1).cropbox :=
  ⟨by simp [process_file],
    mediabox_matches_cropbox .vertical (1 / 2) 0 0 [pageEx] _
      (by simp [process_file])⟩

/-- Heap model for the deep-copy discipline of the splitter: the pool of
live page objects is a list, a page reference is an index into the pool,
and `copy.deepcopy` allocates fresh entries at its end.  Lines 82-83 /
122-123 of the source deep-copy the source page twice; the split appends
the two finished copies and returns their fresh indices. -/
def split_alloc (heap : List Page) (src : ℕ) (orientation : Orientation)
    (ratio gutter offset : ℚ) : List Page × ℕ × ℕ :=
  let pr := split_dispatch orientation (heap.getD src default)
    ratio gutter offset
  (heap ++ [pr.1, pr.2], heap.length, heap.length + 1)

/-- In-place mutation of one live page object's cropbox, as the Python
statements `page.cropbox.lower_left = ...` do. -/
def setCropboxAt (heap : List Page) (addr : ℕ) (b : Box) : List Page :=
  heap.set addr { heap.getD addr default with cropbox := b }

/-- C8: the two pages returned by the split are independent deep copies:
the split never mutates the source page in place, the two copies live at
fresh addresses distinct from the source's and from each other's, and
mutating either copy's cropbox afterwards alters neither the source page
nor the sibling copy. -/
theorem deepcopy_no_aliasing (heap : List Page) (src : ℕ)
    (orientation : Orientation) (ratio gutter offset : ℚ) (b : Box)
    (hsrc : src < heap.length) :
    (split_alloc heap src orientation ratio gutter offset).1[src]?
        = heap[src]? ∧
    (split_alloc heap src orientation ratio gutter offset).2.1 ≠ src ∧
    (split_alloc heap src orientation ratio gutter offset).2.2 ≠ src ∧
    (split_alloc heap src orientation ratio gutter offset).2.1
        ≠ (split_alloc heap src orientation ratio gutter offset).2.2 ∧
    (setCropboxAt (split_alloc heap src orientation ratio gutter offset).1
        (split_alloc heap src orientation ratio gutter offset).2.1 b)[src]?
      = (split_alloc heap src orientation ratio gutter offset).1[src]? ∧
    (setCropboxAt (split_alloc heap src orientation ratio gutter offset).1
        (split_alloc heap src orientation ratio gutter offset).2.1 b)[
          (split_alloc heap src orientation ratio gutter offset).2.2]?
      = (split_alloc heap src orientation ratio gutter offset).1[
          (split_alloc heap src orientation ratio gutter offset).2.2]? ∧
    (setCropboxAt (split_alloc heap src orientation ratio gutter offset).1
        (split_alloc heap src orientation ratio gutter offset).2.2 b)[src]?
      = (split_alloc heap src orientation ratio gutter offset).1[src]? ∧
    (setCropboxAt (split_alloc heap src orientation ratio gutter offset).1
        (split_alloc heap src orientation ratio gutter offset).2.2 b)[
          (split_alloc heap src orientation ratio gutter offset).2.1]?
      = (split_alloc heap src orientation ratio gutter offset).1[
          (split_alloc heap src orientation ratio gutter offset).2.1]? := by
  simp only [split_alloc, setCropboxAt]
  refine ⟨List.getElem?_append_left hsrc, by omega, by omega, by omega,
    ?_, ?_, ?_, ?_⟩
  · exact List.getElem?_set_ne (by omega)
  · exact List.getElem?_set_ne (by omega)
  · exact List.getElem?_set_ne (by omega)
  · exact List.getElem?_set_ne (by omega)

/-- Witness for C8 on a one-page heap. -/
theorem deepcopy_no_aliasing_witness :
    0 < ([pageEx] : List Page).length ∧
    ((split_alloc [pageEx] 0 .vertical (1 / 2) 0 0).1[0]?
        = ([pageEx] : List Page)[0]? ∧
    (split_alloc [pageEx] 0 .vertical (1 / 2) 0 0).2.1 ≠ 0 ∧
    (split_alloc [pageEx] 0 .vertical (1 / 2) 0 0).2.2 ≠ 0 ∧
    (split_alloc [pageEx] 0 .vertical (1 / 2) 0 0).2.1
        ≠ (split_alloc [pageEx] 0 .vertical (1 / 2) 0 0).2.2 ∧
    (setCropboxAt (split_alloc [pageEx] 0 .vertical (1 / 2) 0 0).1
        (split_alloc [pageEx] 0 .vertical (1 / 2) 0 0).2.1 ⟨0, 0, 1, 1⟩)[0]?
      = (split_alloc [pageEx] 0 .vertical (1 / 2) 0 0).1[0]? ∧
    (setCropboxAt (split_alloc [pageEx] 0 .vertical (1 / 2) 0 0).1
        (split_alloc [pageEx] 0 .vertical (1 / 2) 0 0).2.1 ⟨0, 0, 1, 1⟩)[
          (split_alloc [pageEx] 0 .vertical (1 / 2) 0 0).2.2]?
      = (split_alloc [pageEx] 0 .vertical (1 / 2) 0 0).1[
          (split_alloc [pageEx] 0 .vertical (1 / 2) 0 0).2.2]? ∧
    (setCropboxAt (split_alloc [pageEx] 0 .vertical (1 / 2) 0 0).1
        (split_alloc [pageEx] 0 .vertical (1 / 2) 0 0).2.2 ⟨0, 0, 1, 1⟩)[0]?
      = (split_alloc [pageEx] 0 .vertical (1 / 2) 0 0).1[0]? ∧
    (setCropboxAt (split_alloc [pageEx] 0 .vertical (1 / 2) 0 0).1
        (split_alloc [pageEx] 0 .vertical (1 / 2) 0 0).2.2 ⟨0, 0, 1, 1⟩)[
          (split_alloc [pageEx] 0 .vertical (1 / 2) 0 0).2.1]?
      = (split_alloc [pageEx] 0 .vertical (1 / 2) 0 0).1[
          (split_alloc [pageEx] 0 .vertical (1 / 2) 0 0).2.1]?) :=
  ⟨by simp,
    deepcopy_no_aliasing [pageEx] 0 .vertical (1 / 2) 0 0 ⟨0, 0, 1, 1⟩
      (by simp)⟩

/-- The characters after the last `'.'` of a name, or `none` when the
name holds no dot (helper for Python's `Path.suffix`). -/
def afterLastDot : List Char → Option (List Char)
  | [] => none
  | c :: cs =>
      match afterLastDot cs with
      | some s => some s
      | none => if c = '.' then some cs else none

/-- Python's `Path.suffix`: the final extension including its dot, or
empty when there is no dot, the only dot leads the name, or the last dot
ends it. -/
def path_suffix (name : List Char) : List Char :=
  match name with
  | [] => []
  | _ :: rest =>
      match afterLastDot rest with
      | some s => if s = [] then [] else '.' :: s
      | none => []

/-- `Path.glob("*.ext")` matches exactly the names ending in `.ext`,
case-sensitively: `*` matches any run of characters. -/
def glob_match_ext (ext : List Char) (name : List Char) : Bool :=
  List.isSuffixOf ext name

/-- Byte-wise order on names, as Python's `sorted` compares paths. -/
def name_le : List Char → List Char → Bool
  | [], _ => true
  | _ :: _, [] => false
  | a :: as, b :: bs => if a = b then name_le as bs else decide (a < b)

/-- Insertion into a sorted list of names. -/
def insert_name (x : List Char) : List (List Char) → List (List Char)
  | [] => [x]
  | y :: ys => if name_le x y then x :: y :: ys else y :: insert_name x ys

/-- `sorted(...)` over names. -/
def sort_names : List (List Char) → List (List Char)
  | [] => []
  | x :: xs => insert_name x (sort_names xs)

/-- The filesystem object behind `--input`: a directory with its entry
names, a plain file, or anything else. -/
inductive FsPath
  | dir (entries : List (List Char))
  | file (name : List Char)
  | other

/-- `iter_pdf_files` (`split_spreads.py` lines 46-54): for a directory,
yield the sorted `*.pdf` glob matches and then the sorted `*.PDF` glob
matches; for a plain file, yield it exactly when its suffix lowercases
to `.pdf`; otherwise warn and yield nothing. -/
def iter_pdf_files : FsPath → List (List Char)
  | .dir entries =>
      sort_names (entries.filter (glob_match_ext ['.', 'p', 'd', 'f']))
        ++ sort_names (entries.filter (glob_match_ext ['.', 'P', 'D', 'F']))
  | .file name =>
      if (path_suffix name).map Char.toLower = ['.', 'p', 'd', 'f'] then
        [name]
      else []
  | .other => []

/-- Insertion keeps exactly the previous names plus the inserted one. -/
theorem mem_insert_name (x n : List Char) (l : List (List Char)) :
    n ∈ insert_name x l ↔ n = x ∨ n ∈ l := by
  induction l with
  | nil => simp [insert_name]
  | cons y ys ih =>
      simp only [insert_name]
      split
      · simp [List.mem_cons]
      · simp only [List.mem_cons, ih]
        tauto

/-- Sorting keeps exactly the same names. -/
theorem mem_sort_names (n : List Char) (l : List (List Char)) :
    n ∈ sort_names l ↔ n ∈ l := by
  induction l with
  | nil => simp [sort_names]
  | cons x xs ih => simp [sort_names, mem_insert_name, ih]

/-- C9 counterexample: the directory entry `a.Pdf` has an extension that
lowercases to `.pdf`, yet directory discovery yields nothing, because
the globs `*.pdf` and `*.PDF` are case-sensitive. -/
theorem discovery_mixed_case_counterexample :
    (path_suffix ['a', '.', 'P', 'd', 'f']).map Char.toLower
        = ['.', 'p', 'd', 'f'] ∧
    iter_pdf_files (.dir [['a', '.', 'P', 'd', 'f']]) = [] := by
  constructor <;> rfl

/-- C9 as amended: a single-file input is discovered iff its extension
lowercases to `.pdf`; a directory entry is discovered iff its name ends
in `.pdf` or in `.PDF` exactly (other letter-case variants of the
extension are not discovered). -/
theorem discovery_amended (name n : List Char)
    (entries : List (List Char)) :
    (name ∈ iter_pdf_files (.file name)
      ↔ (path_suffix name).map Char.toLower = ['.', 'p', 'd', 'f']) ∧
    (n ∈ iter_pdf_files (.dir entries)
      ↔ n ∈ entries ∧
        (glob_match_ext ['.', 'p', 'd', 'f'] n
          ∨ glob_match_ext ['.', 'P', 'D', 'F'] n)) := by
  constructor
  · simp only [iter_pdf_files]
    split
    next h => simp [h]
    next h => simp [h]
  · simp only [iter_pdf_files, List.mem_append, mem_sort_names,
      List.mem_filter]
    tauto

end SplitSpreads
